import Mathlib

/-!
Shallow embedding of the `product-tracking` pallet (`src/lib.rs`) and proofs
about its shipment registry, shipping-event log, status transition logic and
off-chain-worker task queue.

Storage maps are modelled as association lists; `u64` counters are `Nat` with
an explicit overflow guard mirroring `checked_add`.
-/

namespace ProductTracking

/-! ### Association-list maps (model of Substrate storage maps) -/

def mapGet {α β : Type} [DecidableEq α] : List (α × β) → α → Option β
  | [], _ => none
  | p :: l, k => if p.1 = k then some p.2 else mapGet l k

def mapRemove {α β : Type} [DecidableEq α] (m : List (α × β)) (k : α) : List (α × β) :=
  m.filter (fun p => !(decide (p.1 = k)))

def mapInsert {α β : Type} [DecidableEq α] (m : List (α × β)) (k : α) (v : β) : List (α × β) :=
  (k, v) :: mapRemove m k

def mapContains {α β : Type} [DecidableEq α] (m : List (α × β)) (k : α) : Bool :=
  (mapGet m k).isSome

def mapGetD {α β : Type} [DecidableEq α] (m : List (α × β)) (k : α) (d : β) : β :=
  (mapGet m k).getD d

/-- Substrate's `append` on a `Vec`-valued map: push onto the (default-empty) list. -/
def mapAppend {α β : Type} [DecidableEq α] (m : List (α × List β)) (k : α) (v : β) :
    List (α × List β) :=
  mapInsert m k (mapGetD m k [] ++ [v])

/-! ### Custom types (from `src/lib.rs`) -/

abbrev Identifier := List Nat
/-- `I16F16` fixed point, modelled by its raw value. -/
abbrev Decimal := Int
abbrev ShipmentId := Identifier
abbrev ShippingEventId := Identifier
abbrev ShippingEventIndex := Nat
abbrev DeviceId := Identifier
abbrev ProductId := List Nat
abbrev AccountId := String
abbrev Moment := Nat

def IDENTIFIER_MAX_LENGTH : Nat := 10
def SHIPMENT_MAX_PRODUCTS : Nat := 10
/-- `u64::MAX`, the point at which `EventCount::get().checked_add(1)` fails. -/
def u64MAX : Nat := 2 ^ 64 - 1

inductive ShipmentStatus
  | Pending
  | InTransit
  | Delivered
deriving DecidableEq

structure Shipment where
  id : ShipmentId
  owner : AccountId
  status : ShipmentStatus
  products : List ProductId
  registered : Moment
  delivered : Option Moment
deriving DecidableEq

def Shipment.pickup (s : Shipment) : Shipment :=
  { s with status := ShipmentStatus.InTransit }

def Shipment.deliver (s : Shipment) (delivered_on : Moment) : Shipment :=
  { s with status := ShipmentStatus.Delivered, delivered := some delivered_on }

inductive ShippingEventType
  | ShipmentPickup
  | ShipmentDelivery
  | SensorReading
deriving DecidableEq

structure ReadPoint where
  latitude : Decimal
  longitude : Decimal
deriving DecidableEq

inductive ReadingType
  | Humidity
  | Pressure
  | Shock
  | Tilt
  | Temperature
  | Vibration
deriving DecidableEq

structure Reading where
  device_id : DeviceId
  reading_type : ReadingType
  timestamp : Moment
  value : Decimal
deriving DecidableEq

structure ShippingEvent where
  id : ShippingEventId
  event_type : ShippingEventType
  shipment_id : ShipmentId
  location : Option ReadPoint
  readings : List Reading
  timestamp : Moment
deriving DecidableEq

inductive OcwTaskType
  | ShipmentRegistration
  | ShipmentPickup
  | ShipmentDelivery
deriving DecidableEq

def OcwTaskType.from_shipping_event_type :
    ShippingEventType → Except String OcwTaskType
  | ShippingEventType.ShipmentPickup => Except.ok OcwTaskType.ShipmentPickup
  | ShippingEventType.ShipmentDelivery => Except.ok OcwTaskType.ShipmentDelivery
  | ShippingEventType.SensorReading =>
      Except.error "Unsupported shipping event type conversion"

inductive OcwTaskPayload
  | Shipment : Shipment → OcwTaskPayload
  | ShippingEvent : ShippingEvent → OcwTaskPayload
deriving DecidableEq

structure OcwTask where
  taskType : OcwTaskType
  payload : OcwTaskPayload
deriving DecidableEq

/-! ### Errors, origins, runtime events -/

inductive ModuleError
  | InvalidOrMissingIdentifier
  | ShipmentAlreadyExists
  | ShipmentHasBeenDelivered
  | ShipmentIsInTransit
  | ShipmentIsUnknown
  | ShipmentHasTooManyProducts
  | ShippingEventAlreadyExists
  | ShippingEventMaxExceeded
deriving DecidableEq

inductive DispatchError
  | badOrigin
  | module : ModuleError → DispatchError
  | other : String → DispatchError
deriving DecidableEq

inductive Origin
  | signed : AccountId → Origin
  | root
  | anon
deriving DecidableEq

/-- `frame_system::ensure_signed`. -/
def ensure_signed : Origin → Option AccountId
  | Origin.signed a => some a
  | Origin.root => none
  | Origin.anon => none

/-- `frame_system::ensure_none`: only the unsigned/none origin passes. -/
def ensure_none : Origin → Except DispatchError Unit
  | Origin.anon => Except.ok ()
  | _ => Except.error DispatchError.badOrigin

inductive RawEvent
  | ShipmentRegistered : AccountId → ShipmentId → AccountId → RawEvent
  | ShipmentStatusUpdated : ShipmentId → ShipmentStatus → RawEvent
  | ShippingEventRecorded :
      AccountId → ShippingEventId → ShipmentId → ShippingEventType → RawEvent
deriving DecidableEq

/-! ### Pallet storage -/

structure PalletState where
  shipments : List (ShipmentId × Shipment)
  shipmentsOfOrganization : List (AccountId × List ShipmentId)
  eventCount : Nat
  allEvents : List (ShippingEventIndex × ShippingEvent)
  eventIndices : List (ShippingEventId × ShippingEventIndex)
  eventsOfShipment : List (ShipmentId × List ShippingEventIndex)
  ocwTasks : List OcwTask
  events : List RawEvent
deriving DecidableEq

def initState : PalletState :=
  { shipments := [], shipmentsOfOrganization := [], eventCount := 0, allEvents := [],
    eventIndices := [], eventsOfShipment := [], ocwTasks := [], events := [] }

/-! ### Validation helpers (`impl<T: Trait> Module<T>`) -/

def validate_identifier (id : Identifier) : Except ModuleError Unit :=
  if id.isEmpty then Except.error ModuleError.InvalidOrMissingIdentifier
  else if id.length ≤ IDENTIFIER_MAX_LENGTH then Except.ok ()
  else Except.error ModuleError.InvalidOrMissingIdentifier

def validate_new_shipment (st : PalletState) (id : ShipmentId) : Except ModuleError Unit :=
  if mapContains st.shipments id then Except.error ModuleError.ShipmentAlreadyExists
  else Except.ok ()

def validate_shipment_products (props : List ProductId) : Except ModuleError Unit :=
  if props.length ≤ SHIPMENT_MAX_PRODUCTS then Except.ok ()
  else Except.error ModuleError.ShipmentHasTooManyProducts

def validate_new_shipping_event (st : PalletState) (id : ShippingEventId) :
    Except ModuleError Unit :=
  if mapContains st.eventIndices id then Except.error ModuleError.ShippingEventAlreadyExists
  else Except.ok ()

/-! ### ShipmentBuilder -/

structure ShipmentBuilder where
  id : ShipmentId := []
  owner : AccountId := ""
  products : List ProductId := []
  registered : Moment := 0

def ShipmentBuilder.identified_by (b : ShipmentBuilder) (id : ShipmentId) : ShipmentBuilder :=
  { b with id := id }

def ShipmentBuilder.owned_by (b : ShipmentBuilder) (owner : AccountId) : ShipmentBuilder :=
  { b with owner := owner }

def ShipmentBuilder.with_products (b : ShipmentBuilder) (products : List ProductId) :
    ShipmentBuilder :=
  { b with products := products }

def ShipmentBuilder.registered_on (b : ShipmentBuilder) (registered : Moment) :
    ShipmentBuilder :=
  { b with registered := registered }

def ShipmentBuilder.build (b : ShipmentBuilder) : Shipment :=
  { id := b.id, owner := b.owner, products := b.products, registered := b.registered,
    status := ShipmentStatus.Pending, delivered := none }

def new_shipment : ShipmentBuilder := {}

/-! ### Dispatchables

Each dispatchable returns the dispatch outcome together with the storage as it
stands when the call returns: writes performed before an early return would
persist (the pallet is non-transactional), so translating faithfully means
threading the state through every write and returning it in error branches. -/

/-- `register_shipment(origin, id, owner, products)`; `now` models
`<timestamp::Module<T>>::now()`. -/
def register_shipment (origin : Origin) (id : ShipmentId) (owner : AccountId)
    (products : List ProductId) (now : Moment) (st : PalletState) :
    Option DispatchError × PalletState :=
  match ensure_signed origin with
  | none => (some DispatchError.badOrigin, st)
  | some who =>
    match validate_identifier id with
    | Except.error e => (some (DispatchError.module e), st)
    | Except.ok _ =>
      match validate_shipment_products products with
      | Except.error e => (some (DispatchError.module e), st)
      | Except.ok _ =>
        match validate_new_shipment st id with
        | Except.error e => (some (DispatchError.module e), st)
        | Except.ok _ =>
          let shipment :=
            ((((new_shipment.identified_by id).owned_by owner).registered_on
                now).with_products products).build
          let status := shipment.status
          let st1 := { st with shipments := mapInsert st.shipments id shipment }
          let st2 := { st1 with
            shipmentsOfOrganization := mapAppend st1.shipmentsOfOrganization owner id }
          let st3 := { st2 with ocwTasks := st2.ocwTasks ++
            [OcwTask.mk OcwTaskType.ShipmentRegistration
              (OcwTaskPayload.Shipment shipment)] }
          let st4 := { st3 with events := st3.events ++
            [RawEvent.ShipmentRegistered who id owner] }
          let st5 := { st4 with events := st4.events ++
            [RawEvent.ShipmentStatusUpdated id status] }
          (none, st5)

/-- The tail of `record_event` for non-`SensorReading` events: persist the
mutated shipment, enqueue the OCW task (the `?` on
`from_shipping_event_type` threads its possible error), deposit the
status-updated event. -/
def record_event_mutate (event : ShippingEvent) (event_type : ShippingEventType)
    (shipment_id : ShipmentId) (shipment2 : Shipment) (st1 : PalletState) :
    Option DispatchError × PalletState :=
  let new_status := shipment2.status
  let st2 := { st1 with shipments := mapInsert st1.shipments shipment_id shipment2 }
  match OcwTaskType.from_shipping_event_type event_type with
  | Except.error e => (some (DispatchError.other e), st2)
  | Except.ok tt =>
    let st3 := { st2 with ocwTasks := st2.ocwTasks ++
      [OcwTask.mk tt (OcwTaskPayload.ShippingEvent event)] }
    let st4 := { st3 with events := st3.events ++
      [RawEvent.ShipmentStatusUpdated shipment_id new_status] }
    (none, st4)

/-- `record_event(origin, event)`; `now` models `<timestamp::Module<T>>::now()`. -/
def record_event (origin : Origin) (event : ShippingEvent) (now : Moment)
    (st : PalletState) : Option DispatchError × PalletState :=
  match ensure_signed origin with
  | none => (some DispatchError.badOrigin, st)
  | some who =>
    match validate_identifier event.id with
    | Except.error e => (some (DispatchError.module e), st)
    | Except.ok _ =>
      match validate_identifier event.shipment_id with
      | Except.error e => (some (DispatchError.module e), st)
      | Except.ok _ =>
        let event_id := event.id
        let event_type := event.event_type
        let shipment_id := event.shipment_id
        let event_count := st.eventCount
        if event_count = u64MAX then
          (some (DispatchError.module ModuleError.ShippingEventMaxExceeded), st)
        else
          let event_idx := event_count + 1
          match validate_new_shipping_event st event_id with
          | Except.error e => (some (DispatchError.module e), st)
          | Except.ok _ =>
            match (match mapGet st.shipments shipment_id with
              | some shipment =>
                match shipment.status with
                | ShipmentStatus.Delivered =>
                    Except.error ModuleError.ShipmentHasBeenDelivered
                | ShipmentStatus.InTransit =>
                    if event_type = ShippingEventType.ShipmentPickup then
                      Except.error ModuleError.ShipmentIsInTransit
                    else Except.ok shipment
                | ShipmentStatus.Pending => Except.ok shipment
              | none => Except.error ModuleError.ShipmentIsUnknown : Except ModuleError Shipment) with
            | Except.error e => (some (DispatchError.module e), st)
            | Except.ok shipment =>
              let st1 := { st with
                eventCount := event_idx,
                allEvents := mapInsert st.allEvents event_idx event,
                eventIndices := mapInsert st.eventIndices event_id event_idx,
                eventsOfShipment := mapAppend st.eventsOfShipment shipment_id event_idx,
                events := st.events ++
                  [RawEvent.ShippingEventRecorded who event_id shipment_id event_type] }
              match event_type with
              | ShippingEventType.SensorReading => (none, st1)
              | ShippingEventType.ShipmentPickup =>
                  record_event_mutate event ShippingEventType.ShipmentPickup shipment_id
                    shipment.pickup st1
              | ShippingEventType.ShipmentDelivery =>
                  record_event_mutate event ShippingEventType.ShipmentDelivery shipment_id
                    (shipment.deliver now) st1

/-- `clear_ocwtasks(origin)`: `ensure_none`, then `OcwTasks::kill()`. -/
def clear_ocwtasks (origin : Origin) (st : PalletState) :
    Option DispatchError × PalletState :=
  match ensure_none origin with
  | Except.error e => (some e, st)
  | Except.ok _ => (none, { st with ocwTasks := [] })

/-! ### Calls, unsigned validation, reachability -/

inductive Call
  | register_shipment : ShipmentId → AccountId → List ProductId → Call
  | record_event : ShippingEvent → Call
  | clear_ocwtasks : Call
deriving DecidableEq

/-- `ValidateUnsigned::validate_unsigned`: only `clear_ocwtasks` is a valid
unsigned call; anything else is `InvalidTransaction::Call`. -/
def validate_unsigned : Call → Bool
  | Call.clear_ocwtasks => true
  | _ => false

inductive Op
  | register (origin : Origin) (id : ShipmentId) (owner : AccountId)
      (products : List ProductId) (now : Moment)
  | record (origin : Origin) (event : ShippingEvent) (now : Moment)
  | clear (origin : Origin)

def runOp : Op → PalletState → Option DispatchError × PalletState
  | Op.register origin id owner products now, st =>
      register_shipment origin id owner products now st
  | Op.record origin event now, st => record_event origin event now st
  | Op.clear origin, st => clear_ocwtasks origin st

/-- States reachable from genesis through the public dispatchables. -/
inductive Reachable : PalletState → Prop
  | init : Reachable initState
  | step (op : Op) {st : PalletState} : Reachable st → Reachable (runOp op st).2

/-! ### Invariant definitions -/

def eventMatches (m : List (ShippingEventIndex × ShippingEvent)) (s : ShipmentId)
    (i : Nat) : Bool :=
  match mapGet m i with
  | some e => decide (e.shipment_id = s)
  | none => false

def logInv (st : PalletState) : Prop :=
  (∀ i : Nat, (mapGet st.allEvents i).isSome = true ↔ (1 ≤ i ∧ i ≤ st.eventCount)) ∧
  (∀ s : ShipmentId, mapGetD st.eventsOfShipment s [] =
    (List.range' 1 st.eventCount).filter (eventMatches st.allEvents s))

def deliveredInv (st : PalletState) : Prop :=
  ∀ id sh, mapGet st.shipments id = some sh →
    (sh.delivered.isSome = true ↔ sh.status = ShipmentStatus.Delivered)

/-! ### Concrete fixtures -/

/-- The bytes of `"0001"`. -/
def idW : ShipmentId := [48, 48, 48, 49]

def evIdW : ShippingEventId := [150, 160, 170]

def shPendingW : Shipment :=
  { id := idW, owner := "Northwind", status := ShipmentStatus.Pending, products := [],
    registered := 42, delivered := none }

def shInTransitW : Shipment := { shPendingW with status := ShipmentStatus.InTransit }

def shDeliveredW : Shipment :=
  { shPendingW with status := ShipmentStatus.Delivered, delivered := some 42 }

def stPendingW : PalletState := { initState with shipments := [(idW, shPendingW)] }

def stInTransitW : PalletState := { initState with shipments := [(idW, shInTransitW)] }

def stDeliveredW : PalletState := { initState with shipments := [(idW, shDeliveredW)] }

def pickupEvW : ShippingEvent :=
  { id := evIdW, event_type := ShippingEventType.ShipmentPickup, shipment_id := idW,
    location := none, readings := [], timestamp := 42 }

def deliverEvW : ShippingEvent :=
  { pickupEvW with event_type := ShippingEventType.ShipmentDelivery, timestamp := 100 }

def sensorEvW : ShippingEvent :=
  { pickupEvW with
    event_type := ShippingEventType.SensorReading, timestamp := 50,
    readings := [Reading.mk [7] ReadingType.Temperature 50 20] }

def opRegW : Op := Op.register (Origin.signed "Alice") idW "Northwind" [] 42

def opPickW : Op := Op.record (Origin.signed "Alice") pickupEvW 42

def stReachedW : PalletState := (runOp opPickW (runOp opRegW initState).2).2

/-- The validation, existence, state-conflict and capacity errors of the
claim. -/
def c5Errors : List ModuleError :=
  [ModuleError.InvalidOrMissingIdentifier, ModuleError.ShipmentHasTooManyProducts,
   ModuleError.ShipmentAlreadyExists, ModuleError.ShipmentIsUnknown,
   ModuleError.ShipmentIsInTransit, ModuleError.ShipmentHasBeenDelivered,
   ModuleError.ShippingEventMaxExceeded]

/-- A nonempty queue fixture for the clearing claims. -/
def stQueueW : PalletState :=
  { initState with ocwTasks :=
      [OcwTask.mk OcwTaskType.ShipmentRegistration (OcwTaskPayload.Shipment shPendingW)] }

/-- A state whose event-id index already contains `evIdW`. -/
def stDupW : PalletState :=
  { stPendingW with
    eventCount := 1, allEvents := [(1, sensorEvW)], eventIndices := [(evIdW, 1)] }


/-! ### Map lemmas -/

theorem mapGet_remove {α β : Type} [DecidableEq α] (m : List (α × β)) (k k' : α) :
    mapGet (mapRemove m k) k' = if k' = k then none else mapGet m k' := by
  induction m with
  | nil => simp [mapRemove, mapGet]
  | cons p l ih =>
    by_cases hpk : p.1 = k
    · have : mapRemove (p :: l) k = mapRemove l k := by
        simp [mapRemove, List.filter, hpk]
      rw [this, ih]
      by_cases hk : k' = k
      · simp [hk]
      · have hpk' : ¬ p.1 = k' := by
          intro h; exact hk (by rw [← h, hpk])
        simp [hk, mapGet, hpk']
    · have : mapRemove (p :: l) k = p :: mapRemove l k := by
        simp [mapRemove, List.filter, hpk]
      rw [this]
      by_cases hp : p.1 = k'
      · have hk : ¬ k' = k := by
          intro h; exact hpk (by rw [hp, h])
        simp [mapGet, hp, hk]
      · simp [mapGet, hp, ih]

theorem mapGet_insert {α β : Type} [DecidableEq α] (m : List (α × β)) (k k' : α) (v : β) :
    mapGet (mapInsert m k v) k' = if k = k' then some v else mapGet m k' := by
  show (if k = k' then some v else mapGet (mapRemove m k) k') = _
  by_cases h : k = k'
  · simp [h]
  · have h' : ¬ k' = k := fun hh => h hh.symm
    simp [h, mapGet_remove, h']

theorem mapGet_insert_self {α β : Type} [DecidableEq α] (m : List (α × β)) (k : α) (v : β) :
    mapGet (mapInsert m k v) k = some v := by
  simp [mapGet_insert]

theorem mapGet_insert_ne {α β : Type} [DecidableEq α] (m : List (α × β)) (k k' : α) (v : β)
    (h : k ≠ k') : mapGet (mapInsert m k v) k' = mapGet m k' := by
  simp [mapGet_insert, h]

theorem mapGetD_mapAppend_self {α β : Type} [DecidableEq α] (m : List (α × List β))
    (k : α) (v : β) : mapGetD (mapAppend m k v) k [] = mapGetD m k [] ++ [v] := by
  simp [mapAppend, mapGetD, mapGet_insert_self]

theorem mapGetD_mapAppend_ne {α β : Type} [DecidableEq α] (m : List (α × List β))
    (k k' : α) (v : β) (h : k ≠ k') :
    mapGetD (mapAppend m k v) k' [] = mapGetD m k' [] := by
  simp [mapAppend, mapGetD, mapGet_insert_ne _ _ _ _ h]

theorem mapContains_eq_false {α β : Type} [DecidableEq α] (m : List (α × β)) (k : α)
    (h : mapContains m k = false) : mapGet m k = none := by
  unfold mapContains at h
  cases hg : mapGet m k with
  | none => rfl
  | some v => rw [hg] at h; simp at h

/-! ### Event-log invariant (indices are exactly `1..eventCount`; the
per-shipment lists are the matching indices in storage order) -/

theorem logInv_init : logInv initState := by
  constructor
  · intro i
    simp [initState, mapGet]
    intro h1
    omega
  · intro s
    simp [initState, mapGetD, mapGet]

/-- Preservation under a call that leaves the log fields untouched. -/
theorem logInv_congr (st st' : PalletState) (h : logInv st)
    (hc : st'.eventCount = st.eventCount) (ha : st'.allEvents = st.allEvents)
    (he : st'.eventsOfShipment = st.eventsOfShipment) : logInv st' := by
  constructor
  · intro i; rw [hc, ha]; exact h.1 i
  · intro s; rw [hc, ha, he]; exact h.2 s

/-- Preservation under a successful log write: counter bumped to `c + 1`, the
event stored at the fresh index `c + 1`, the index appended to the event's
shipment list. -/
theorem logInv_write (st st' : PalletState) (event : ShippingEvent) (h : logInv st)
    (hc : st'.eventCount = st.eventCount + 1)
    (ha : st'.allEvents = mapInsert st.allEvents (st.eventCount + 1) event)
    (he : st'.eventsOfShipment =
      mapAppend st.eventsOfShipment event.shipment_id (st.eventCount + 1)) :
    logInv st' := by
  have hfresh : ∀ i, i ≤ st.eventCount → (st.eventCount + 1) ≠ i := by
    intro i hi h'; omega
  constructor
  · intro i
    rw [hc, ha, mapGet_insert]
    by_cases hi : st.eventCount + 1 = i
    · subst hi
      rw [if_pos rfl]
      exact ⟨fun _ => ⟨by omega, Nat.le_refl _⟩, fun _ => rfl⟩
    · rw [if_neg hi, h.1 i]
      constructor <;> intro hx <;> omega
  · intro s
    rw [hc, ha, he]
    have hrange : List.range' 1 (st.eventCount + 1) =
        List.range' 1 st.eventCount ++ [1 + st.eventCount] := List.range'_1_concat 1 _
    rw [hrange, List.filter_append]
    have hagree : (List.range' 1 st.eventCount).filter
        (eventMatches (mapInsert st.allEvents (st.eventCount + 1) event) s) =
        (List.range' 1 st.eventCount).filter (eventMatches st.allEvents s) := by
      apply List.filter_congr
      intro i hi
      rw [List.mem_range'_1] at hi
      unfold eventMatches
      rw [mapGet_insert_ne _ _ _ _ (hfresh i (by omega))]
    rw [hagree]
    have hlast : (1 + st.eventCount) = st.eventCount + 1 := by omega
    by_cases hs : event.shipment_id = s
    · have : mapGetD (mapAppend st.eventsOfShipment event.shipment_id
          (st.eventCount + 1)) s [] =
          mapGetD st.eventsOfShipment s [] ++ [st.eventCount + 1] := by
        rw [← hs]; exact mapGetD_mapAppend_self _ _ _
      rw [this, h.2 s]
      have : ([1 + st.eventCount].filter
          (eventMatches (mapInsert st.allEvents (st.eventCount + 1) event) s)) =
          [st.eventCount + 1] := by
        simp [List.filter, hlast, eventMatches, mapGet_insert_self, hs]
      rw [this]
    · have : mapGetD (mapAppend st.eventsOfShipment event.shipment_id
          (st.eventCount + 1)) s [] = mapGetD st.eventsOfShipment s [] :=
        mapGetD_mapAppend_ne _ _ _ _ hs
      rw [this, h.2 s]
      have : ([1 + st.eventCount].filter
          (eventMatches (mapInsert st.allEvents (st.eventCount + 1) event) s)) = [] := by
        simp [List.filter, hlast, eventMatches, mapGet_insert_self, hs]
      rw [this, List.append_nil]

/-! ### Shape lemmas about the dispatchables -/

theorem record_event_mutate_fields (event : ShippingEvent) (et : ShippingEventType)
    (sid : ShipmentId) (sh2 : Shipment) (st1 : PalletState) :
    (record_event_mutate event et sid sh2 st1).2.eventCount = st1.eventCount ∧
    (record_event_mutate event et sid sh2 st1).2.allEvents = st1.allEvents ∧
    (record_event_mutate event et sid sh2 st1).2.eventsOfShipment = st1.eventsOfShipment ∧
    (record_event_mutate event et sid sh2 st1).2.eventIndices = st1.eventIndices := by
  unfold record_event_mutate
  split <;> exact ⟨rfl, rfl, rfl, rfl⟩

theorem record_event_mutate_shipments (event : ShippingEvent) (et : ShippingEventType)
    (sid : ShipmentId) (sh2 : Shipment) (st1 : PalletState) :
    (record_event_mutate event et sid sh2 st1).2.shipments =
      mapInsert st1.shipments sid sh2 := by
  unfold record_event_mutate
  split <;> rfl

theorem record_event_mutate_fst (event : ShippingEvent) (et : ShippingEventType)
    (sid : ShipmentId) (sh2 : Shipment) (st1 : PalletState) :
    (record_event_mutate event et sid sh2 st1).1 = none ∨
    ∃ s, (record_event_mutate event et sid sh2 st1).1 = some (DispatchError.other s) := by
  unfold record_event_mutate
  split
  · exact Or.inr ⟨_, rfl⟩
  · exact Or.inl rfl

theorem validate_identifier_error (id : Identifier) (e : ModuleError)
    (h : validate_identifier id = Except.error e) :
    e = ModuleError.InvalidOrMissingIdentifier := by
  unfold validate_identifier at h
  split at h
  · cases h; rfl
  · split at h
    · cases h
    · cases h; rfl

theorem validate_shipment_products_error (props : List ProductId) (e : ModuleError)
    (h : validate_shipment_products props = Except.error e) :
    e = ModuleError.ShipmentHasTooManyProducts := by
  unfold validate_shipment_products at h
  split at h
  · cases h
  · cases h; rfl

theorem validate_new_shipment_error (st : PalletState) (id : ShipmentId) (e : ModuleError)
    (h : validate_new_shipment st id = Except.error e) :
    e = ModuleError.ShipmentAlreadyExists := by
  unfold validate_new_shipment at h
  split at h
  · cases h; rfl
  · cases h

theorem validate_new_shipping_event_error (st : PalletState) (id : ShippingEventId)
    (e : ModuleError) (h : validate_new_shipping_event st id = Except.error e) :
    e = ModuleError.ShippingEventAlreadyExists := by
  unfold validate_new_shipping_event at h
  split at h
  · cases h; rfl
  · cases h

/-! ### Preservation of the log invariant -/

theorem register_shipment_logInv (origin : Origin) (id : ShipmentId) (owner : AccountId)
    (products : List ProductId) (now : Moment) (st : PalletState) (h : logInv st) :
    logInv (register_shipment origin id owner products now st).2 := by
  simp only [register_shipment]
  split
  · exact h
  · split
    · exact h
    · split
      · exact h
      · split
        · exact h
        · exact logInv_congr st _ h rfl rfl rfl

theorem record_event_logInv (origin : Origin) (event : ShippingEvent) (now : Moment)
    (st : PalletState) (h : logInv st) :
    logInv (record_event origin event now st).2 := by
  simp only [record_event]
  split
  · exact h
  · split
    · exact h
    · split
      · exact h
      · split
        · exact h
        · split
          · exact h
          · split
            · exact h
            · split
              · exact logInv_write st _ event h rfl rfl rfl
              · exact logInv_congr _ _ (logInv_write st _ event h rfl rfl rfl)
                  (record_event_mutate_fields _ _ _ _ _).1
                  (record_event_mutate_fields _ _ _ _ _).2.1
                  (record_event_mutate_fields _ _ _ _ _).2.2.1
              · exact logInv_congr _ _ (logInv_write st _ event h rfl rfl rfl)
                  (record_event_mutate_fields _ _ _ _ _).1
                  (record_event_mutate_fields _ _ _ _ _).2.1
                  (record_event_mutate_fields _ _ _ _ _).2.2.1

theorem clear_ocwtasks_logInv (origin : Origin) (st : PalletState) (h : logInv st) :
    logInv (clear_ocwtasks origin st).2 := by
  unfold clear_ocwtasks
  split
  · exact h
  · exact logInv_congr st _ h rfl rfl rfl

theorem logInv_reachable (st : PalletState) (h : Reachable st) : logInv st := by
  induction h with
  | init => exact logInv_init
  | step op h ih =>
    cases op with
    | register origin id owner products now =>
        exact register_shipment_logInv origin id owner products now _ ih
    | record origin event now => exact record_event_logInv origin event now _ ih
    | clear origin => exact clear_ocwtasks_logInv origin _ ih

/-! ### Shipment-record invariant: `deliveredAt` is set iff status is Delivered -/

theorem deliveredInv_init : deliveredInv initState := by
  intro id sh h
  simp [initState, mapGet] at h

theorem deliveredInv_congr (st st' : PalletState) (h : deliveredInv st)
    (hs : st'.shipments = st.shipments) : deliveredInv st' := by
  intro id sh hget
  rw [hs] at hget
  exact h id sh hget

theorem deliveredInv_insert (st st' : PalletState) (k : ShipmentId) (sh : Shipment)
    (h : deliveredInv st)
    (hsh : sh.delivered.isSome = true ↔ sh.status = ShipmentStatus.Delivered)
    (hs : st'.shipments = mapInsert st.shipments k sh) : deliveredInv st' := by
  intro id sh' hget
  rw [hs, mapGet_insert] at hget
  by_cases hk : k = id
  · rw [if_pos hk] at hget
    cases hget
    exact hsh
  · rw [if_neg hk] at hget
    exact h id sh' hget

theorem register_shipment_deliveredInv (origin : Origin) (id : ShipmentId)
    (owner : AccountId) (products : List ProductId) (now : Moment) (st : PalletState)
    (h : deliveredInv st) :
    deliveredInv (register_shipment origin id owner products now st).2 := by
  simp only [register_shipment]
  split
  · exact h
  · split
    · exact h
    · split
      · exact h
      · split
        · exact h
        · refine deliveredInv_insert st _ id _ h ?_ rfl
          simp [ShipmentBuilder.build]

theorem record_event_deliveredInv (origin : Origin) (event : ShippingEvent) (now : Moment)
    (st : PalletState) (h : deliveredInv st) :
    deliveredInv (record_event origin event now st).2 := by
  simp only [record_event]
  split
  · exact h
  · split
    · exact h
    · split
      · exact h
      · split
        · exact h
        · split
          · exact h
          · split
            · exact h
            · next shipment heq =>
              split
              · exact deliveredInv_congr st _ h rfl
              · next heqt =>
                refine deliveredInv_insert _ _ _ _ (deliveredInv_congr st _ h rfl) ?_
                  (record_event_mutate_shipments _ _ _ _ _)
                rw [heqt] at heq
                split at heq
                · split at heq
                  · cases heq
                  · split at heq
                    · cases heq
                    · cases heq
                      exact absurd rfl (by assumption)
                  · next hst =>
                    cases heq
                    have := h _ _ (by assumption)
                    simp [Shipment.pickup, hst] at this ⊢
                    exact this
                · cases heq
              · next heqt =>
                refine deliveredInv_insert _ _ _ _ (deliveredInv_congr st _ h rfl) ?_
                  (record_event_mutate_shipments _ _ _ _ _)
                simp [Shipment.deliver]

theorem clear_ocwtasks_deliveredInv (origin : Origin) (st : PalletState)
    (h : deliveredInv st) : deliveredInv (clear_ocwtasks origin st).2 := by
  unfold clear_ocwtasks
  split
  · exact h
  · exact deliveredInv_congr st _ h rfl

theorem deliveredInv_reachable (st : PalletState) (h : Reachable st) : deliveredInv st := by
  induction h with
  | init => exact deliveredInv_init
  | step op h ih =>
    cases op with
    | register origin id owner products now =>
        exact register_shipment_deliveredInv origin id owner products now _ ih
    | record origin event now => exact record_event_deliveredInv origin event now _ ih
    | clear origin => exact clear_ocwtasks_deliveredInv origin _ ih

/-! ### Outcome case analysis for the dispatchables -/

theorem register_shipment_cases (origin : Origin) (id : ShipmentId) (owner : AccountId)
    (products : List ProductId) (now : Moment) (st : PalletState) :
    (register_shipment origin id owner products now st).1 = none ∨
    (∃ e : ModuleError,
      (register_shipment origin id owner products now st).1 = some (DispatchError.module e) ∧
      (register_shipment origin id owner products now st).2 = st) ∨
    ((register_shipment origin id owner products now st).1 = some DispatchError.badOrigin ∧
      (register_shipment origin id owner products now st).2 = st) := by
  simp only [register_shipment]
  split
  · exact Or.inr (Or.inr ⟨rfl, rfl⟩)
  · split
    · exact Or.inr (Or.inl ⟨_, rfl, rfl⟩)
    · split
      · exact Or.inr (Or.inl ⟨_, rfl, rfl⟩)
      · split
        · exact Or.inr (Or.inl ⟨_, rfl, rfl⟩)
        · exact Or.inl rfl

theorem record_event_cases (origin : Origin) (event : ShippingEvent) (now : Moment)
    (st : PalletState) :
    ((record_event origin event now st).1 = none ∧
      (record_event origin event now st).2.eventCount = st.eventCount + 1 ∧
      mapGet (record_event origin event now st).2.allEvents (st.eventCount + 1) =
        some event) ∨
    (∃ e : ModuleError,
      (record_event origin event now st).1 = some (DispatchError.module e) ∧
      (record_event origin event now st).2 = st ∧
      (e = ModuleError.ShippingEventMaxExceeded → st.eventCount = u64MAX)) ∨
    ((record_event origin event now st).1 = some DispatchError.badOrigin ∧
      (record_event origin event now st).2 = st) := by
  simp only [record_event]
  split
  · exact Or.inr (Or.inr ⟨rfl, rfl⟩)
  · split
    · next e heq =>
      exact Or.inr (Or.inl ⟨e, rfl, rfl, fun hmax =>
        ModuleError.noConfusion ((validate_identifier_error _ _ heq).symm.trans hmax)⟩)
    · split
      · next e heq =>
        exact Or.inr (Or.inl ⟨e, rfl, rfl, fun hmax =>
          ModuleError.noConfusion ((validate_identifier_error _ _ heq).symm.trans hmax)⟩)
      · split
        · next hcond =>
          exact Or.inr (Or.inl ⟨_, rfl, rfl, fun _ => hcond⟩)
        · split
          · next e heq =>
            exact Or.inr (Or.inl ⟨e, rfl, rfl, fun hmax =>
              ModuleError.noConfusion
                ((validate_new_shipping_event_error _ _ _ heq).symm.trans hmax)⟩)
          · split
            · next e heq =>
              refine Or.inr (Or.inl ⟨e, rfl, rfl, fun hmax => ?_⟩)
              split at heq
              · split at heq
                · cases heq
                  exact ModuleError.noConfusion hmax
                · split at heq
                  · cases heq
                    exact ModuleError.noConfusion hmax
                  · cases heq
                · cases heq
              · cases heq
                exact ModuleError.noConfusion hmax
            · split
              · exact Or.inl ⟨rfl, rfl, mapGet_insert_self _ _ _⟩
              · refine Or.inl ⟨?_, ?_, ?_⟩
                · simp [record_event_mutate, OcwTaskType.from_shipping_event_type]
                · rw [(record_event_mutate_fields _ _ _ _ _).1]
                · rw [(record_event_mutate_fields _ _ _ _ _).2.1]
                  exact mapGet_insert_self _ _ _
              · refine Or.inl ⟨?_, ?_, ?_⟩
                · simp [record_event_mutate, OcwTaskType.from_shipping_event_type]
                · rw [(record_event_mutate_fields _ _ _ _ _).1]
                · rw [(record_event_mutate_fields _ _ _ _ _).2.1]
                  exact mapGet_insert_self _ _ _

/-! ### Queue behaviour lemmas -/

theorem register_shipment_ocw_cases (origin : Origin) (id : ShipmentId) (owner : AccountId)
    (products : List ProductId) (now : Moment) (st : PalletState) :
    ((register_shipment origin id owner products now st).1 = none ∧
      (register_shipment origin id owner products now st).2.ocwTasks = st.ocwTasks ++
        [OcwTask.mk OcwTaskType.ShipmentRegistration (OcwTaskPayload.Shipment
          (Shipment.mk id owner ShipmentStatus.Pending products now none))]) ∨
    ((∃ e, (register_shipment origin id owner products now st).1 = some e) ∧
      (register_shipment origin id owner products now st).2 = st) := by
  simp only [register_shipment]
  split
  · exact Or.inr ⟨⟨_, rfl⟩, rfl⟩
  · split
    · exact Or.inr ⟨⟨_, rfl⟩, rfl⟩
    · split
      · exact Or.inr ⟨⟨_, rfl⟩, rfl⟩
      · split
        · exact Or.inr ⟨⟨_, rfl⟩, rfl⟩
        · exact Or.inl ⟨rfl, rfl⟩

theorem record_event_ocw_cases (origin : Origin) (event : ShippingEvent) (now : Moment)
    (st : PalletState) :
    ((∃ e, (record_event origin event now st).1 = some e) ∧
      (record_event origin event now st).2 = st) ∨
    ((record_event origin event now st).1 = none ∧
      event.event_type = ShippingEventType.SensorReading ∧
      (record_event origin event now st).2.ocwTasks = st.ocwTasks) ∨
    ((record_event origin event now st).1 = none ∧
      ∃ tt, OcwTaskType.from_shipping_event_type event.event_type = Except.ok tt ∧
        (record_event origin event now st).2.ocwTasks = st.ocwTasks ++
          [OcwTask.mk tt (OcwTaskPayload.ShippingEvent event)]) := by
  simp only [record_event]
  split
  · exact Or.inl ⟨⟨_, rfl⟩, rfl⟩
  · split
    · exact Or.inl ⟨⟨_, rfl⟩, rfl⟩
    · split
      · exact Or.inl ⟨⟨_, rfl⟩, rfl⟩
      · split
        · exact Or.inl ⟨⟨_, rfl⟩, rfl⟩
        · split
          · exact Or.inl ⟨⟨_, rfl⟩, rfl⟩
          · split
            · exact Or.inl ⟨⟨_, rfl⟩, rfl⟩
            · split
              · next heqt => exact Or.inr (Or.inl ⟨rfl, heqt, rfl⟩)
              · next heqt =>
                refine Or.inr (Or.inr ⟨?_, OcwTaskType.ShipmentPickup, ?_, ?_⟩)
                · simp [record_event_mutate, OcwTaskType.from_shipping_event_type]
                · rw [heqt]
                  rfl
                · simp [record_event_mutate, OcwTaskType.from_shipping_event_type]
              · next heqt =>
                refine Or.inr (Or.inr ⟨?_, OcwTaskType.ShipmentDelivery, ?_, ?_⟩)
                · simp [record_event_mutate, OcwTaskType.from_shipping_event_type]
                · rw [heqt]
                  rfl
                · simp [record_event_mutate, OcwTaskType.from_shipping_event_type]

theorem clear_ocwtasks_cases (origin : Origin) (st : PalletState) :
    (clear_ocwtasks origin st).2 = st ∨
    (clear_ocwtasks origin st).2.ocwTasks = [] := by
  unfold clear_ocwtasks
  split
  · exact Or.inl rfl
  · exact Or.inr rfl

/-! ### Claim C1 -/

/-- C1 counterexample: a fully successful registration (signed origin, fresh
well-formed id `"0001"`, no products, time 42, empty initial state) creates the
Pending record but records nothing in the event log: `EventCount` stays 0,
`AllEvents` stays empty, so no Registration event is logged and no event
index 1 is assigned, contrary to the claim. -/
theorem C1_counterexample :
    (register_shipment (Origin.signed "Alice") idW "Northwind" [] 42 initState).1 = none ∧
    mapGet (register_shipment (Origin.signed "Alice") idW "Northwind" [] 42
        initState).2.shipments idW =
      some (Shipment.mk idW "Northwind" ShipmentStatus.Pending [] 42 none) ∧
    (register_shipment (Origin.signed "Alice") idW "Northwind" [] 42
        initState).2.eventCount = 0 ∧
    (register_shipment (Origin.signed "Alice") idW "Northwind" [] 42
        initState).2.allEvents = [] ∧
    mapGet (register_shipment (Origin.signed "Alice") idW "Northwind" [] 42
        initState).2.allEvents 1 = none := by
  decide

/-- C1 (amended): a successful registration creates the shipment record with
status `Pending`, `registered = now`, `delivered = none`, appends the id to the
owner's shipment index, enqueues a `ShipmentRegistration` OCW task and deposits
the `ShipmentRegistered`/`ShipmentStatusUpdated` runtime events; the event log
(`EventCount`/`AllEvents`/`EventsOfShipment`) is untouched and no event index
is produced. -/
theorem C1_register_creates_pending_record (who : AccountId) (id : ShipmentId)
    (owner : AccountId) (products : List ProductId) (now : Moment) (st : PalletState)
    (hid : validate_identifier id = Except.ok ())
    (hp : validate_shipment_products products = Except.ok ())
    (hnew : mapContains st.shipments id = false) :
    (register_shipment (Origin.signed who) id owner products now st).1 = none ∧
    mapGet (register_shipment (Origin.signed who) id owner products now st).2.shipments
        id = some (Shipment.mk id owner ShipmentStatus.Pending products now none) ∧
    mapGetD (register_shipment (Origin.signed who) id owner products now
        st).2.shipmentsOfOrganization owner [] =
      mapGetD st.shipmentsOfOrganization owner [] ++ [id] ∧
    (register_shipment (Origin.signed who) id owner products now st).2.ocwTasks =
      st.ocwTasks ++ [OcwTask.mk OcwTaskType.ShipmentRegistration
        (OcwTaskPayload.Shipment
          (Shipment.mk id owner ShipmentStatus.Pending products now none))] ∧
    (register_shipment (Origin.signed who) id owner products now st).2.events =
      st.events ++ [RawEvent.ShipmentRegistered who id owner,
        RawEvent.ShipmentStatusUpdated id ShipmentStatus.Pending] ∧
    (register_shipment (Origin.signed who) id owner products now st).2.eventCount =
      st.eventCount ∧
    (register_shipment (Origin.signed who) id owner products now st).2.allEvents =
      st.allEvents ∧
    (register_shipment (Origin.signed who) id owner products now st).2.eventsOfShipment =
      st.eventsOfShipment := by
  have hn : validate_new_shipment st id = Except.ok () := by
    simp [validate_new_shipment, hnew]
  simp [register_shipment, ensure_signed, hid, hp, hn, mapGet_insert_self,
    mapGetD_mapAppend_self, new_shipment, ShipmentBuilder.identified_by,
    ShipmentBuilder.owned_by, ShipmentBuilder.registered_on,
    ShipmentBuilder.with_products, ShipmentBuilder.build]

/-- C1 witness: the amended statement instantiated at the `"0001"`/Northwind
registration from the empty state. -/
theorem C1_witness :
    mapGet (register_shipment (Origin.signed "Alice") idW "Northwind" [] 42
        initState).2.shipments idW =
      some (Shipment.mk idW "Northwind" ShipmentStatus.Pending [] 42 none) :=
  (C1_register_creates_pending_record "Alice" idW "Northwind" [] 42 initState
    (by rfl) (by rfl) (by rfl)).2.1

/-! ### Claim C2 -/

/-- C2: the status transition table of `record_event` for an existing (or
unknown) shipment: Pickup on Pending succeeds and sets InTransit; Pickup on
InTransit fails `ShipmentIsInTransit`; any event on a Delivered shipment fails
`ShipmentHasBeenDelivered`; an event for an unknown shipment id fails
`ShipmentIsUnknown`. All failures leave the state unchanged. -/
theorem C2_transition_table (st : PalletState) (who : AccountId) (event : ShippingEvent)
    (now : Moment)
    (hv1 : validate_identifier event.id = Except.ok ())
    (hv2 : validate_identifier event.shipment_id = Except.ok ())
    (hc : ¬ (st.eventCount = u64MAX))
    (hfresh : validate_new_shipping_event st event.id = Except.ok ()) :
    (∀ sh, mapGet st.shipments event.shipment_id = some sh →
      sh.status = ShipmentStatus.Pending →
      event.event_type = ShippingEventType.ShipmentPickup →
      (record_event (Origin.signed who) event now st).1 = none ∧
      mapGet (record_event (Origin.signed who) event now st).2.shipments
        event.shipment_id = some { sh with status := ShipmentStatus.InTransit }) ∧
    (∀ sh, mapGet st.shipments event.shipment_id = some sh →
      sh.status = ShipmentStatus.InTransit →
      event.event_type = ShippingEventType.ShipmentPickup →
      record_event (Origin.signed who) event now st =
        (some (DispatchError.module ModuleError.ShipmentIsInTransit), st)) ∧
    (∀ sh, mapGet st.shipments event.shipment_id = some sh →
      sh.status = ShipmentStatus.Delivered →
      record_event (Origin.signed who) event now st =
        (some (DispatchError.module ModuleError.ShipmentHasBeenDelivered), st)) ∧
    (mapGet st.shipments event.shipment_id = none →
      record_event (Origin.signed who) event now st =
        (some (DispatchError.module ModuleError.ShipmentIsUnknown), st)) := by
  refine ⟨?_, ?_, ?_, ?_⟩
  · intro sh hget hst htype
    simp only [record_event, ensure_signed, hv1, hv2]
    rw [if_neg hc]
    simp only [hfresh, hget, hst, htype]
    constructor
    · simp [record_event_mutate, OcwTaskType.from_shipping_event_type]
    · rw [record_event_mutate_shipments]
      rw [mapGet_insert_self]
      rfl
  · intro sh hget hst htype
    simp only [record_event, ensure_signed, hv1, hv2]
    rw [if_neg hc]
    simp [hfresh, hget, hst, htype]
  · intro sh hget hst
    simp only [record_event, ensure_signed, hv1, hv2]
    rw [if_neg hc]
    simp [hfresh, hget, hst]
  · intro hget
    simp only [record_event, ensure_signed, hv1, hv2]
    rw [if_neg hc]
    simp [hfresh, hget]

/-- C2 witness: the table instantiated at a Pickup on the Pending `"0001"`
shipment: the call succeeds and the stored record becomes InTransit. -/
theorem C2_witness :
    (record_event (Origin.signed "Alice") pickupEvW 42 stPendingW).1 = none ∧
    mapGet (record_event (Origin.signed "Alice") pickupEvW 42 stPendingW).2.shipments
      pickupEvW.shipment_id =
      some { shPendingW with status := ShipmentStatus.InTransit } :=
  (C2_transition_table stPendingW "Alice" pickupEvW 42 (by rfl) (by rfl) (by decide)
    (by rfl)).1 shPendingW (by rfl) (by rfl) (by rfl)

/-! ### Claim C3 -/

/-- C3 counterexample: a Deliver event carrying client timestamp `t = 100`,
executed while the chain clock reads 42, persists `delivered = some 42`, not
`some 100`: `deliveredAt` equals the chain's current time, not the supplied
event timestamp. -/
theorem C3_counterexample :
    deliverEvW.timestamp = 100 ∧
    (record_event (Origin.signed "Alice") deliverEvW 42 stInTransitW).1 = none ∧
    mapGet (record_event (Origin.signed "Alice") deliverEvW 42
        stInTransitW).2.shipments idW =
      some { shInTransitW with
             status := ShipmentStatus.Delivered, delivered := some 42 } ∧
    ¬ (mapGet (record_event (Origin.signed "Alice") deliverEvW 42
        stInTransitW).2.shipments idW =
      some { shInTransitW with
             status := ShipmentStatus.Delivered, delivered := some 100 }) := by
  decide

/-- C3 (amended): a non-failing Deliver on a Pending or InTransit shipment
persists `status = Delivered` and `delivered = some now` where `now` is the
chain time at execution (equal to the supplied event timestamp only when the
two coincide); a SensorReading event leaves the shipment map entirely
unchanged and only stores a log entry at the fresh index. -/
theorem C3_deliver_uses_chain_time (st : PalletState) (who : AccountId)
    (event : ShippingEvent) (now : Moment) (sh : Shipment)
    (hv1 : validate_identifier event.id = Except.ok ())
    (hv2 : validate_identifier event.shipment_id = Except.ok ())
    (hc : ¬ (st.eventCount = u64MAX))
    (hfresh : validate_new_shipping_event st event.id = Except.ok ())
    (hget : mapGet st.shipments event.shipment_id = some sh)
    (hnd : ¬ (sh.status = ShipmentStatus.Delivered)) :
    (event.event_type = ShippingEventType.ShipmentDelivery →
      (record_event (Origin.signed who) event now st).1 = none ∧
      mapGet (record_event (Origin.signed who) event now st).2.shipments
        event.shipment_id =
        some { sh with status := ShipmentStatus.Delivered, delivered := some now }) ∧
    (event.event_type = ShippingEventType.SensorReading →
      (record_event (Origin.signed who) event now st).1 = none ∧
      (record_event (Origin.signed who) event now st).2.shipments = st.shipments ∧
      mapGet (record_event (Origin.signed who) event now st).2.allEvents
        (st.eventCount + 1) = some event) := by
  constructor
  · intro htype
    cases hst : sh.status with
    | Delivered => exact absurd hst hnd
    | Pending =>
      simp only [record_event, ensure_signed, hv1, hv2]
      rw [if_neg hc]
      simp only [hfresh, hget, hst, htype]
      constructor
      · simp [record_event_mutate, OcwTaskType.from_shipping_event_type]
      · rw [record_event_mutate_shipments, mapGet_insert_self]
        rfl
    | InTransit =>
      simp only [record_event, ensure_signed, hv1, hv2]
      rw [if_neg hc]
      simp only [hfresh, hget, hst, htype]
      constructor
      · simp [record_event_mutate, OcwTaskType.from_shipping_event_type]
      · simp [record_event_mutate_shipments, mapGet_insert_self, Shipment.deliver]
  · intro htype
    cases hst : sh.status with
    | Delivered => exact absurd hst hnd
    | Pending =>
      simp only [record_event, ensure_signed, hv1, hv2]
      rw [if_neg hc]
      simp only [hfresh, hget, hst, htype]
      simp [mapGet_insert_self]
    | InTransit =>
      simp only [record_event, ensure_signed, hv1, hv2]
      rw [if_neg hc]
      simp only [hfresh, hget, hst, htype]
      simp [mapGet_insert_self]

/-- C3 witness: the amended statement instantiated at a Deliver on the
InTransit `"0001"` shipment with chain time 42. -/
theorem C3_witness :
    (record_event (Origin.signed "Alice") deliverEvW 42 stInTransitW).1 = none ∧
    mapGet (record_event (Origin.signed "Alice") deliverEvW 42
        stInTransitW).2.shipments deliverEvW.shipment_id =
      some { shInTransitW with
             status := ShipmentStatus.Delivered, delivered := some 42 } :=
  (C3_deliver_uses_chain_time stInTransitW "Alice" deliverEvW 42 shInTransitW
    (by rfl) (by rfl) (by decide) (by rfl) (by rfl) (by decide)).1 (by rfl)

/-! ### Claim C4 -/

/-- C4: in every reachable state the stored event indices are exactly
`1..EventCount` (no gaps, no repeats), each successful `record_event` assigns
index `previousCounter + 1` and stores the event there,
`ShippingEventMaxExceeded` arises only when the counter sits at `u64::MAX`,
and `EventsOfShipment[s]` lists, in storage order, exactly the indices whose
stored event has `shipment_id = s`. -/
theorem C4_log_indices (st : PalletState) (h : Reachable st) :
    (∀ i : Nat, (mapGet st.allEvents i).isSome = true ↔ (1 ≤ i ∧ i ≤ st.eventCount)) ∧
    (∀ s : ShipmentId, mapGetD st.eventsOfShipment s [] =
      (List.range' 1 st.eventCount).filter (eventMatches st.allEvents s)) ∧
    (∀ origin event now, (record_event origin event now st).1 = none →
      (record_event origin event now st).2.eventCount = st.eventCount + 1 ∧
      mapGet (record_event origin event now st).2.allEvents (st.eventCount + 1) =
        some event) ∧
    (∀ origin event now,
      (record_event origin event now st).1 =
        some (DispatchError.module ModuleError.ShippingEventMaxExceeded) →
      st.eventCount = u64MAX) := by
  have hinv := logInv_reachable st h
  refine ⟨hinv.1, hinv.2, ?_, ?_⟩
  · intro origin event now hnone
    rcases record_event_cases origin event now st with
      ⟨_, h2, h3⟩ | ⟨e, h1, _, _⟩ | ⟨h1, _⟩
    · exact ⟨h2, h3⟩
    · rw [hnone] at h1; cases h1
    · rw [hnone] at h1; cases h1
  · intro origin event now hmax
    rcases record_event_cases origin event now st with
      ⟨h1, _, _⟩ | ⟨e, h1, _, h4⟩ | ⟨h1, _⟩
    · rw [h1] at hmax; cases hmax
    · rw [h1] at hmax
      injection hmax with h5
      injection h5 with h6
      exact h4 h6
    · rw [h1] at hmax
      injection hmax with h5
      cases h5

/-- C4 witness: in the state reached by registering `"0001"` and recording a
pickup, index 1 is occupied. -/
theorem C4_witness : (mapGet stReachedW.allEvents 1).isSome = true :=
  ((C4_log_indices stReachedW
    (Reachable.step opPickW (Reachable.step opRegW Reachable.init))).1 1).mpr
    (by decide)

/-! ### Claim C5 -/

/-- C5: whenever `register_shipment` or `record_event` returns one of the
validation/existence/state-conflict/capacity errors, the entire storage is
left exactly as it was: all checks run before any write. -/
theorem C5_checks_before_writes :
    (∀ origin id owner products now st e, e ∈ c5Errors →
      (register_shipment origin id owner products now st).1 =
        some (DispatchError.module e) →
      (register_shipment origin id owner products now st).2 = st) ∧
    (∀ origin event now st e, e ∈ c5Errors →
      (record_event origin event now st).1 = some (DispatchError.module e) →
      (record_event origin event now st).2 = st) := by
  constructor
  · intro origin id owner products now st e _ herr
    rcases register_shipment_cases origin id owner products now st with
      h1 | ⟨e', _, h2⟩ | ⟨h1, h2⟩
    · rw [herr] at h1; cases h1
    · exact h2
    · exact h2
  · intro origin event now st e _ herr
    rcases record_event_cases origin event now st with
      ⟨h1, _, _⟩ | ⟨e', _, h2, _⟩ | ⟨h1, h2⟩
    · rw [herr] at h1; cases h1
    · exact h2
    · exact h2

/-- C5 witness: a registration failing with `InvalidOrMissingIdentifier`
(empty id) leaves the empty state unchanged. -/
theorem C5_witness :
    (register_shipment (Origin.signed "Alice") [] "Northwind" [] 42 initState).2 =
      initState :=
  C5_checks_before_writes.1 (Origin.signed "Alice") [] "Northwind" [] 42 initState
    ModuleError.InvalidOrMissingIdentifier (by decide) (by rfl)

/-! ### Claim C6 -/

/-- C6 counterexample: a SensorReading event on an InTransit shipment is
successfully stored in the event log (counter bumped, event at index 1), yet
the OCW task queue stays empty: not every successfully stored event enqueues
a notification. -/
theorem C6_counterexample :
    (record_event (Origin.signed "Alice") sensorEvW 50 stInTransitW).1 = none ∧
    (record_event (Origin.signed "Alice") sensorEvW 50 stInTransitW).2.eventCount =
      stInTransitW.eventCount + 1 ∧
    mapGet (record_event (Origin.signed "Alice") sensorEvW 50
        stInTransitW).2.allEvents 1 = some sensorEvW ∧
    stInTransitW.ocwTasks = [] ∧
    (record_event (Origin.signed "Alice") sensorEvW 50 stInTransitW).2.ocwTasks = [] := by
  decide

/-- C6 (amended): every successfully stored Pickup or Delivery event appends
exactly its OCW task to the queue in the same call, every successful
registration appends a `ShipmentRegistration` task, a successfully stored
SensorReading event enqueues nothing, and no operation other than
`clear_ocwtasks` ever removes queue entries (the old queue is always a prefix
of the new one). -/
theorem C6_queue_append :
    (∀ origin event now st tt,
      (record_event origin event now st).1 = none →
      OcwTaskType.from_shipping_event_type event.event_type = Except.ok tt →
      (record_event origin event now st).2.ocwTasks =
        st.ocwTasks ++ [OcwTask.mk tt (OcwTaskPayload.ShippingEvent event)]) ∧
    (∀ origin event now st,
      (record_event origin event now st).1 = none →
      event.event_type = ShippingEventType.SensorReading →
      (record_event origin event now st).2.ocwTasks = st.ocwTasks) ∧
    (∀ origin id owner products now st,
      (register_shipment origin id owner products now st).1 = none →
      (register_shipment origin id owner products now st).2.ocwTasks =
        st.ocwTasks ++ [OcwTask.mk OcwTaskType.ShipmentRegistration
          (OcwTaskPayload.Shipment
            (Shipment.mk id owner ShipmentStatus.Pending products now none))]) ∧
    (∀ op st, (∀ o, op ≠ Op.clear o) →
      ∃ ts, (runOp op st).2.ocwTasks = st.ocwTasks ++ ts) := by
  refine ⟨?_, ?_, ?_, ?_⟩
  · intro origin event now st tt hnone hok
    rcases record_event_ocw_cases origin event now st with
      ⟨⟨e, h1⟩, _⟩ | ⟨_, htype, _⟩ | ⟨_, tt', hok', h3⟩
    · rw [hnone] at h1; cases h1
    · rw [htype] at hok; cases hok
    · have : Except.ok (ε := String) tt' = Except.ok tt := hok'.symm.trans hok
      injection this with h5
      rw [← h5]
      exact h3
  · intro origin event now st hnone htype
    rcases record_event_ocw_cases origin event now st with
      ⟨⟨e, h1⟩, _⟩ | ⟨_, _, h3⟩ | ⟨_, tt', hok', _⟩
    · rw [hnone] at h1; cases h1
    · exact h3
    · rw [htype] at hok'; cases hok'
  · intro origin id owner products now st hnone
    rcases register_shipment_ocw_cases origin id owner products now st with
      ⟨_, h2⟩ | ⟨⟨e, h1⟩, _⟩
    · exact h2
    · rw [hnone] at h1; cases h1
  · intro op st hne
    cases op with
    | register origin id owner products now =>
      simp only [runOp]
      rcases register_shipment_ocw_cases origin id owner products now st with
        ⟨_, h2⟩ | ⟨_, h2⟩
      · exact ⟨_, h2⟩
      · exact ⟨[], by rw [h2, List.append_nil]⟩
    | record origin event now =>
      simp only [runOp]
      rcases record_event_ocw_cases origin event now st with
        ⟨_, h2⟩ | ⟨_, _, h3⟩ | ⟨_, tt', _, h3⟩
      · exact ⟨[], by rw [h2, List.append_nil]⟩
      · exact ⟨[], by rw [h3, List.append_nil]⟩
      · exact ⟨_, h3⟩
    | clear origin => exact absurd rfl (hne origin)

/-- C6 witness: a successful pickup on the Pending `"0001"` shipment appends
exactly the pickup task to the (empty) queue. -/
theorem C6_witness :
    (record_event (Origin.signed "Alice") pickupEvW 42 stPendingW).2.ocwTasks =
      stPendingW.ocwTasks ++
        [OcwTask.mk OcwTaskType.ShipmentPickup (OcwTaskPayload.ShippingEvent pickupEvW)] :=
  C6_queue_append.1 (Origin.signed "Alice") pickupEvW 42 stPendingW
    OcwTaskType.ShipmentPickup (by decide) (by rfl)

/-! ### Claim C7 -/

/-- C7 counterexample: `clear_ocwtasks` called with the anonymous/none origin
on a nonempty queue succeeds and empties the queue — the anonymous origin is
exactly the one `ensure_none` accepts, contrary to the claim that an anonymous
origin fails authorization and leaves the queue unchanged (and a root origin,
the natural privileged/administrative origin, fails with `BadOrigin`). -/
theorem C7_counterexample :
    stQueueW.ocwTasks ≠ [] ∧
    clear_ocwtasks Origin.anon stQueueW = (none, { stQueueW with ocwTasks := [] }) ∧
    clear_ocwtasks Origin.root stQueueW =
      (some DispatchError.badOrigin, stQueueW) := by
  decide

/-- C7 (amended): `clear_ocwtasks` fails with `BadOrigin` and leaves all state
unchanged for every signed origin and for the root origin; with the none
(unsigned) origin — the only call `validate_unsigned` admits into the pool —
it succeeds and unconditionally empties the whole queue. -/
theorem C7_clear_authorization :
    (∀ a st, clear_ocwtasks (Origin.signed a) st = (some DispatchError.badOrigin, st)) ∧
    (∀ st, clear_ocwtasks Origin.root st = (some DispatchError.badOrigin, st)) ∧
    (∀ st, clear_ocwtasks Origin.anon st = (none, { st with ocwTasks := [] })) ∧
    validate_unsigned Call.clear_ocwtasks = true ∧
    (∀ id owner products,
      validate_unsigned (Call.register_shipment id owner products) = false) ∧
    (∀ event, validate_unsigned (Call.record_event event) = false) :=
  ⟨fun _ _ => rfl, fun _ => rfl, fun _ => rfl, rfl, fun _ _ _ => rfl, fun _ => rfl⟩

/-! ### Claim C8 -/

/-- C8: identifier shape validation fails exactly outside lengths 1–10
(`InvalidOrMissingIdentifier` for empty or over-long ids), a product list of
11 entries fails `ShipmentHasTooManyProducts` while 10 entries passes, and
registering an id that is already present fails `ShipmentAlreadyExists`
leaving the state unchanged. -/
theorem C8_validation_boundaries :
    (∀ id : Identifier, id.length = 0 →
      validate_identifier id = Except.error ModuleError.InvalidOrMissingIdentifier) ∧
    (∀ id : Identifier, 11 ≤ id.length →
      validate_identifier id = Except.error ModuleError.InvalidOrMissingIdentifier) ∧
    (∀ id : Identifier, 1 ≤ id.length → id.length ≤ 10 →
      validate_identifier id = Except.ok ()) ∧
    (∀ products : List ProductId, products.length = 11 →
      validate_shipment_products products =
        Except.error ModuleError.ShipmentHasTooManyProducts) ∧
    (∀ products : List ProductId, products.length = 10 →
      validate_shipment_products products = Except.ok ()) ∧
    (∀ who id owner products now st,
      validate_identifier id = Except.ok () →
      validate_shipment_products products = Except.ok () →
      mapContains st.shipments id = true →
      register_shipment (Origin.signed who) id owner products now st =
        (some (DispatchError.module ModuleError.ShipmentAlreadyExists), st)) := by
  refine ⟨?_, ?_, ?_, ?_, ?_, ?_⟩
  · intro id h
    match id with
    | [] => rfl
    | a :: l => simp at h
  · intro id h
    match id with
    | [] => simp at h
    | a :: l =>
      unfold validate_identifier
      rw [if_neg (by simp), if_neg ?_]
      simp only [List.length_cons, IDENTIFIER_MAX_LENGTH]
      simp only [List.length_cons] at h
      omega
  · intro id h1 h2
    match id with
    | [] => simp at h1
    | a :: l =>
      unfold validate_identifier
      rw [if_neg (by simp), if_pos (show (a :: l).length ≤ IDENTIFIER_MAX_LENGTH by
        simpa [IDENTIFIER_MAX_LENGTH] using h2)]
  · intro products h
    unfold validate_shipment_products
    rw [if_neg ?_]
    simp only [SHIPMENT_MAX_PRODUCTS]
    omega
  · intro products h
    unfold validate_shipment_products
    rw [if_pos ?_]
    simp only [SHIPMENT_MAX_PRODUCTS]
    omega
  · intro who id owner products now st hid hp hdup
    simp only [register_shipment, ensure_signed, hid, hp]
    simp [validate_new_shipment, hdup]

/-- C8 witness: re-registering the already-present `"0001"` id fails with
`ShipmentAlreadyExists` and changes nothing. -/
theorem C8_witness :
    register_shipment (Origin.signed "Alice") idW "Northwind" [] 42 stPendingW =
      (some (DispatchError.module ModuleError.ShipmentAlreadyExists), stPendingW) :=
  C8_validation_boundaries.2.2.2.2.2 "Alice" idW "Northwind" [] 42 stPendingW
    (by rfl) (by rfl) (by rfl)

/-! ### Claim C9 -/

/-- C9: in every state reachable from genesis through the public operations,
every stored shipment record satisfies `delivered.isSome ↔ status =
Delivered`. -/
theorem C9_delivered_iff_status (st : PalletState) (h : Reachable st) :
    ∀ id sh, mapGet st.shipments id = some sh →
      (sh.delivered.isSome = true ↔ sh.status = ShipmentStatus.Delivered) :=
  deliveredInv_reachable st h

/-- C9 witness: the invariant instantiated at the record stored after
registering `"0001"` and recording its pickup. -/
theorem C9_witness :
    ((Shipment.mk idW "Northwind" ShipmentStatus.InTransit [] 42 none).delivered.isSome
        = true) ↔
      (Shipment.mk idW "Northwind" ShipmentStatus.InTransit [] 42 none).status =
        ShipmentStatus.Delivered :=
  C9_delivered_iff_status stReachedW
    (Reachable.step opPickW (Reachable.step opRegW Reachable.init)) idW
    (Shipment.mk idW "Northwind" ShipmentStatus.InTransit [] 42 none) (by decide)

/-! ### Claim C10 -/

/-- C10: `record_event` with an event id already present in `EventIndices`
fails with `ShippingEventAlreadyExists` before any storage write, leaving the
whole state unchanged. -/
theorem C10_duplicate_event_id (who : AccountId) (event : ShippingEvent) (now : Moment)
    (st : PalletState)
    (hv1 : validate_identifier event.id = Except.ok ())
    (hv2 : validate_identifier event.shipment_id = Except.ok ())
    (hc : ¬ (st.eventCount = u64MAX))
    (hdup : mapContains st.eventIndices event.id = true) :
    record_event (Origin.signed who) event now st =
      (some (DispatchError.module ModuleError.ShippingEventAlreadyExists), st) := by
  simp only [record_event, ensure_signed, hv1, hv2]
  rw [if_neg hc]
  simp [validate_new_shipping_event, hdup]

/-- C10 witness: recording an event whose id is already indexed fails with
`ShippingEventAlreadyExists` and changes nothing. -/
theorem C10_witness :
    record_event (Origin.signed "Alice") pickupEvW 42 stDupW =
      (some (DispatchError.module ModuleError.ShippingEventAlreadyExists), stDupW) :=
  C10_duplicate_event_id "Alice" pickupEvW 42 stDupW (by rfl) (by rfl) (by decide)
    (by rfl)

end ProductTracking
